import Mathlib

/-
Shallow embedding of src/nutrition_models.py.

Numbers: Python floats are modelled as exact rationals (ℚ); the spec's
"within floating-point tolerance" examples are exact under ℚ.  The
RER / weight-loss formulas use a transcendental power (`** 0.75`), so
they are modelled over ℝ.

Object identity: Python objects have identity (`id()`).  `FoodItem` is a
`@dataclass(frozen=True)`, so Python generates `__eq__`/`__hash__` from
the FIELD VALUES; dict keying by a FoodItem therefore merges by value,
not by identity.  To let identity questions be stated at all, an object
reference to a FoodItem is modelled as `FoodRef`: an object id (`oid`)
paired with the field record (`val`).  Attribute access on the Python
object corresponds to `.val`; dict keying corresponds to `.val` because
of the generated value-based `__eq__`/`__hash__`.

Python dicts: insertion-ordered association lists.  `d[k] = v` keeps the
position of an existing key and appends a new key at the end (`updAssoc`);
`d.get(k, 0.0)` is `getAssoc` with default.
-/

namespace NutritionModels

/-- FoodCategory: the closed enumeration from nutrition_models.py. -/
inductive FoodCategory : Type where
  | PROTEIN : FoodCategory
  | CARB : FoodCategory
  | FAT : FoodCategory
  | VEG : FoodCategory
  | SUPPLEMENT : FoodCategory
  | OTHER : FoodCategory
deriving DecidableEq

/-- KJ_PER_KCAL constant from the source. -/
def KJ_PER_KCAL : ℚ := 4.184

/-- kcal_to_kj from the source: kcal * KJ_PER_KCAL. -/
def kcal_to_kj (kcal : ℚ) : ℚ := kcal * KJ_PER_KCAL

/-- kj_to_kcal from the source: kj / KJ_PER_KCAL. -/
def kj_to_kcal (kj : ℚ) : ℚ := kj / KJ_PER_KCAL

/-- FoodItem: the frozen dataclass fields. -/
structure FoodItem : Type where
  name : String
  category : FoodCategory
  kj_per_kg : ℚ
  dollars_per_kg : ℚ
  notes : String := ""
deriving DecidableEq

/-- FoodRef: a Python object reference to a FoodItem; `oid` models object
identity, `val` the frozen field record. -/
structure FoodRef : Type where
  oid : Nat
  val : FoodItem
deriving DecidableEq

def FoodItem.kj_per_gram (f : FoodItem) : ℚ := f.kj_per_kg / 1000

def FoodItem.energy_kj (f : FoodItem) (grams : ℚ) : ℚ := f.kj_per_gram * grams

def FoodItem.energy_kcal (f : FoodItem) (grams : ℚ) : ℚ := kj_to_kcal (f.energy_kj grams)

def FoodItem.cost (f : FoodItem) (grams : ℚ) : ℚ := f.dollars_per_kg * (grams / 1000)

/-- RecipeIngredient: a (food reference, grams) pair. -/
structure RecipeIngredient : Type where
  food : FoodRef
  grams : ℚ
deriving DecidableEq

def RecipeIngredient.energy_kj (i : RecipeIngredient) : ℚ := i.food.val.energy_kj i.grams

def RecipeIngredient.energy_kcal (i : RecipeIngredient) : ℚ := i.food.val.energy_kcal i.grams

def RecipeIngredient.cost (i : RecipeIngredient) : ℚ := i.food.val.cost i.grams

/-- Recipe: name, ordered ingredient list, notes. -/
structure Recipe : Type where
  name : String
  ingredients : List RecipeIngredient := []
  notes : String := ""
deriving DecidableEq

/-- Python `sum(f(x) for x in l)`: left fold of + starting at 0. -/
def sumBy {α : Type} (l : List α) (f : α → ℚ) : ℚ :=
  l.foldl (fun acc x => acc + f x) 0

def Recipe.total_kj (r : Recipe) : ℚ := sumBy r.ingredients (fun ing => ing.energy_kj)

def Recipe.total_kcal (r : Recipe) : ℚ := kj_to_kcal r.total_kj

def Recipe.total_cost (r : Recipe) : ℚ := sumBy r.ingredients (fun ing => ing.cost)

/-- getAssoc: Python `d.get(k, default)` on an insertion-ordered dict. -/
def getAssoc {κ : Type} [DecidableEq κ] : List (κ × ℚ) → κ → ℚ → ℚ
  | [], _, d => d
  | (k', v) :: rest, k, d => if k = k' then v else getAssoc rest k d

/-- updAssoc: Python `d[k] = v`: replace in place if present, else append. -/
def updAssoc {κ : Type} [DecidableEq κ] : List (κ × ℚ) → κ → ℚ → List (κ × ℚ)
  | [], k, v => [(k, v)]
  | (k', v') :: rest, k, v =>
      if k = k' then (k, v) :: rest else (k', v') :: updAssoc rest k v

/-- dictAdd: the Python idiom `d[k] = d.get(k, 0.0) + v`. -/
def dictAdd {κ : Type} [DecidableEq κ] (m : List (κ × ℚ)) (k : κ) (v : ℚ) : List (κ × ℚ) :=
  updAssoc m k (getAssoc m k 0 + v)

/-- energy_kj_by_food from the source: group by the food's name string. -/
def Recipe.energy_kj_by_food (r : Recipe) : List (String × ℚ) :=
  r.ingredients.foldl (fun out ing => dictAdd out ing.food.val.name ing.energy_kj) []

/-- energy_kj_by_category from the source: group by the category value. -/
def Recipe.energy_kj_by_category (r : Recipe) : List (FoodCategory × ℚ) :=
  r.ingredients.foldl (fun out ing => dictAdd out ing.food.val.category ing.energy_kj) []

/-- Calendar date for DailyMealPlan.day. -/
structure Date : Type where
  year : Nat
  month : Nat
  day : Nat
deriving DecidableEq

/-- DailyMealPlan: a dated ordered list of recipes. -/
structure DailyMealPlan : Type where
  day : Date
  recipes : List Recipe := []
deriving DecidableEq

def DailyMealPlan.total_kj (p : DailyMealPlan) : ℚ := sumBy p.recipes (fun r => r.total_kj)

def DailyMealPlan.total_kcal (p : DailyMealPlan) : ℚ := kj_to_kcal p.total_kj

def DailyMealPlan.total_cost (p : DailyMealPlan) : ℚ := sumBy p.recipes (fun r => r.total_cost)

/-- grocery_list_from_plans from the source.  The Python dict key is the
FoodItem object; since FoodItem's generated `__eq__`/`__hash__` compare
field values, the key used for lookup/update is `ing.food.val`. -/
def grocery_list_from_plans (plans : List DailyMealPlan) : List (FoodItem × ℚ) :=
  plans.foldl
    (fun totals plan =>
      plan.recipes.foldl
        (fun totals recipe =>
          recipe.ingredients.foldl
            (fun totals ing => dictAdd totals ing.food.val ing.grams)
            totals)
        totals)
    []

/-- rer_kg from the source: 70 * kg ** 0.75 (kcal/day), over ℝ. -/
noncomputable def rer_kg (weight_kg : ℝ) : ℝ := 70 * weight_kg ^ (0.75 : ℝ)

/-- weight_loss_target_kcal from the source; the Python default factor is 0.8. -/
noncomputable def weight_loss_target_kcal (ideal_weight_kg : ℝ) (factor : ℝ) : ℝ :=
  rer_kg ideal_weight_kg * factor

/-- kcal_to_kj at real type, for the kJ-valued target formula. -/
noncomputable def kcal_to_kj_real (kcal : ℝ) : ℝ := kcal * (4.184 : ℝ)

/-- weight_loss_target_kj from the source. -/
noncomputable def weight_loss_target_kj (ideal_weight_kg : ℝ) (factor : ℝ) : ℝ :=
  kcal_to_kj_real (weight_loss_target_kcal ideal_weight_kg factor)

-- Identity reassignment: rename every object id through g, leaving all
-- field data unchanged.  Used to state that grocery aggregation ignores
-- object identity.

def FoodRef.withOid (g : Nat → Nat) (r : FoodRef) : FoodRef := ⟨g r.oid, r.val⟩

def RecipeIngredient.withOids (g : Nat → Nat) (i : RecipeIngredient) : RecipeIngredient :=
  ⟨i.food.withOid g, i.grams⟩

def Recipe.withOids (g : Nat → Nat) (r : Recipe) : Recipe :=
  ⟨r.name, r.ingredients.map (RecipeIngredient.withOids g), r.notes⟩

def DailyMealPlan.withOids (g : Nat → Nat) (p : DailyMealPlan) : DailyMealPlan :=
  ⟨p.day, p.recipes.map (Recipe.withOids g)⟩

-- Checked variants: every division in the source written through an
-- explicit checked division that fails on a zero divisor.  Comparing them
-- with the plain definitions states that no division by zero can occur.

def cdiv (a b : ℚ) : Option ℚ := if b = 0 then none else some (a / b)

def kj_to_kcal_checked (kj : ℚ) : Option ℚ := cdiv kj KJ_PER_KCAL

def FoodItem.kj_per_gram_checked (f : FoodItem) : Option ℚ := cdiv f.kj_per_kg 1000

def FoodItem.energy_kj_checked (f : FoodItem) (grams : ℚ) : Option ℚ :=
  f.kj_per_gram_checked.map (fun q => q * grams)

def FoodItem.energy_kcal_checked (f : FoodItem) (grams : ℚ) : Option ℚ :=
  (f.energy_kj_checked grams).bind kj_to_kcal_checked

def FoodItem.cost_checked (f : FoodItem) (grams : ℚ) : Option ℚ :=
  (cdiv grams 1000).map (fun q => f.dollars_per_kg * q)

def RecipeIngredient.energy_kj_checked (i : RecipeIngredient) : Option ℚ :=
  i.food.val.energy_kj_checked i.grams

def Recipe.total_kj_checked (r : Recipe) : Option ℚ :=
  r.ingredients.foldl
    (fun acc ing => acc.bind (fun a => ing.energy_kj_checked.map (fun e => a + e)))
    (some 0)

def Recipe.total_kcal_checked (r : Recipe) : Option ℚ :=
  r.total_kj_checked.bind kj_to_kcal_checked

-- Concrete example data from the spec's worked examples.

def exChicken : FoodItem := ⟨"chicken", FoodCategory.PROTEIN, 6903.6, 17.61, ""⟩

def exRice : FoodItem := ⟨"rice", FoodCategory.CARB, 5439.2, 2.62, ""⟩

def exRecipe : Recipe := ⟨"meal", [⟨⟨0, exChicken⟩, 140⟩, ⟨⟨1, exRice⟩, 156⟩], ""⟩

/-- twinA and twinB: two FoodItem instances with identical field values but
distinct object identity. -/
def twinA : FoodRef := ⟨0, exChicken⟩

def twinB : FoodRef := ⟨1, exChicken⟩

def planTwinA : DailyMealPlan := ⟨⟨2025, 1, 1⟩, [⟨"r1", [⟨twinA, 100⟩], ""⟩]⟩

def planTwinB : DailyMealPlan := ⟨⟨2025, 1, 2⟩, [⟨"r2", [⟨twinB, 50⟩], ""⟩]⟩

/-- sharedRef: one FoodItem object shared by two plans. -/
def sharedRef : FoodRef := ⟨5, exChicken⟩

def planShared1 : DailyMealPlan := ⟨⟨2025, 2, 1⟩, [⟨"s1", [⟨sharedRef, 100⟩], ""⟩]⟩

def planShared2 : DailyMealPlan := ⟨⟨2025, 2, 2⟩, [⟨"s2", [⟨sharedRef, 50⟩], ""⟩]⟩

/-- dupProtein and dupCarb: distinct FoodItem values sharing one name. -/
def dupProtein : FoodItem := ⟨"dup", FoodCategory.PROTEIN, 1000, 1, ""⟩

def dupCarb : FoodItem := ⟨"dup", FoodCategory.CARB, 2000, 2, "second"⟩

def dupRecipe : Recipe := ⟨"dupmeal", [⟨⟨0, dupProtein⟩, 10⟩, ⟨⟨1, dupCarb⟩, 20⟩], ""⟩

/-- planEmptyIng: one plan holding a single recipe with no ingredients. -/
def planEmptyIng : DailyMealPlan := ⟨⟨2025, 3, 1⟩, [⟨"e", [], ""⟩]⟩

/-- keys of an association list. -/
def keys {κ : Type} (m : List (κ × ℚ)) : List κ := m.map Prod.fst

/-- Sum of the values stored in an association list. -/
def sumVals {κ : Type} (m : List (κ × ℚ)) : ℚ := (m.map Prod.snd).sum

/-- grams contributed to food value f by one ingredient list. -/
def ingGramsFor (f : FoodItem) (l : List RecipeIngredient) : ℚ :=
  ((l.filter (fun i => i.food.val = f)).map (fun i => i.grams)).sum

-- Helper lemmas ---------------------------------------------------------

theorem sumBy_eq_sum {α : Type} (l : List α) (f : α → ℚ) :
    sumBy l f = (l.map f).sum := by
  suffices h : ∀ a : ℚ, l.foldl (fun acc x => acc + f x) a = a + (l.map f).sum by
    simpa [sumBy] using h 0
  induction l with
  | nil => intro a; simp
  | cons x xs ih =>
      intro a
      simp only [List.foldl_cons, List.map_cons, List.sum_cons, ih]
      ring

theorem getAssoc_updAssoc {κ : Type} [DecidableEq κ] (m : List (κ × ℚ)) (k k' : κ) (v d : ℚ) :
    getAssoc (updAssoc m k v) k' d = if k' = k then v else getAssoc m k' d := by
  induction m with
  | nil =>
      by_cases h : k' = k <;> simp [updAssoc, getAssoc, h]
  | cons a rest ih =>
      obtain ⟨ka, va⟩ := a
      by_cases hk : k = ka
      · subst hk
        by_cases h' : k' = k <;> simp [updAssoc, getAssoc, h']
      · by_cases h' : k' = ka
        · subst h'
          have : ¬ k' = k := fun hc => hk (hc ▸ rfl)
          simp [updAssoc, getAssoc, hk, this]
        · simp [updAssoc, getAssoc, hk, h', ih]

theorem getAssoc_dictAdd {κ : Type} [DecidableEq κ] (m : List (κ × ℚ)) (k k' : κ) (v : ℚ) :
    getAssoc (dictAdd m k v) k' 0 =
      if k' = k then getAssoc m k 0 + v else getAssoc m k' 0 := by
  simp [dictAdd, getAssoc_updAssoc]

/-- Lookup after folding `dictAdd` over a list tallies the values of the
entries whose key matches. -/
theorem getAssoc_foldl_dictAdd {α κ : Type} [DecidableEq κ]
    (key : α → κ) (val : α → ℚ) (l : List α) (m : List (κ × ℚ)) (k : κ) :
    getAssoc (l.foldl (fun acc x => dictAdd acc (key x) (val x)) m) k 0 =
      getAssoc m k 0 + ((l.filter (fun x => key x = k)).map val).sum := by
  induction l generalizing m with
  | nil => simp
  | cons x xs ih =>
      simp only [List.foldl_cons, ih, getAssoc_dictAdd]
      by_cases h : key x = k
      · have h' : k = key x := h.symm
        simp [List.filter_cons, h, if_pos h'.symm]
        ring
      · have h' : ¬ k = key x := fun hc => h hc.symm
        simp [List.filter_cons, h, if_neg h']

theorem sumVals_dictAdd {κ : Type} [DecidableEq κ] (m : List (κ × ℚ)) (k : κ) (v : ℚ) :
    sumVals (dictAdd m k v) = sumVals m + v := by
  induction m with
  | nil => simp [dictAdd, updAssoc, getAssoc, sumVals]
  | cons a rest ih =>
      obtain ⟨ka, va⟩ := a
      by_cases hk : k = ka
      · subst hk
        simp [dictAdd, updAssoc, getAssoc, sumVals]
        ring
      · simp only [dictAdd, updAssoc, getAssoc, if_neg hk, sumVals, List.map_cons,
          List.sum_cons] at *
        rw [ih]
        ring

theorem sumVals_foldl_dictAdd {α κ : Type} [DecidableEq κ]
    (key : α → κ) (val : α → ℚ) (l : List α) (m : List (κ × ℚ)) :
    sumVals (l.foldl (fun acc x => dictAdd acc (key x) (val x)) m) =
      sumVals m + (l.map val).sum := by
  induction l generalizing m with
  | nil => simp
  | cons x xs ih =>
      simp only [List.foldl_cons, ih, sumVals_dictAdd, List.map_cons, List.sum_cons]
      ring

theorem keys_updAssoc {κ : Type} [DecidableEq κ] (m : List (κ × ℚ)) (k : κ) (v : ℚ) :
    keys (updAssoc m k v) = if k ∈ keys m then keys m else keys m ++ [k] := by
  induction m with
  | nil => simp [keys, updAssoc]
  | cons a rest ih =>
      obtain ⟨ka, va⟩ := a
      by_cases hk : k = ka
      · subst hk
        simp [keys, updAssoc]
      · simp only [keys, updAssoc, if_neg hk, List.map_cons, List.mem_cons]
        simp only [keys] at ih
        by_cases hmem : k ∈ rest.map Prod.fst
        · simp [ih, hmem, hk]
        · simp [ih, hmem, hk]

theorem keys_nodup_updAssoc {κ : Type} [DecidableEq κ] (m : List (κ × ℚ)) (k : κ) (v : ℚ)
    (h : (keys m).Nodup) : (keys (updAssoc m k v)).Nodup := by
  rw [keys_updAssoc]
  by_cases hmem : k ∈ keys m
  · simpa [hmem] using h
  · simp only [if_neg hmem, List.nodup_append, List.nodup_cons]
    refine ⟨h, by simp, ?_⟩
    intro x hx hx'
    simp only [List.mem_singleton] at hx'
    exact hmem (hx' ▸ hx)

theorem keys_nodup_dictAdd {κ : Type} [DecidableEq κ] (m : List (κ × ℚ)) (k : κ) (v : ℚ)
    (h : (keys m).Nodup) : (keys (dictAdd m k v)).Nodup :=
  keys_nodup_updAssoc m k _ h

theorem keys_nodup_ings (l : List RecipeIngredient) (t : List (FoodItem × ℚ))
    (h : (keys t).Nodup) :
    (keys (l.foldl (fun t2 ing => dictAdd t2 ing.food.val ing.grams) t)).Nodup := by
  induction l generalizing t with
  | nil => simpa using h
  | cons x xs ih => exact ih _ (keys_nodup_dictAdd _ _ _ h)

theorem keys_nodup_recipes (rs : List Recipe) (t : List (FoodItem × ℚ))
    (h : (keys t).Nodup) :
    (keys (rs.foldl
      (fun t r => r.ingredients.foldl (fun t2 ing => dictAdd t2 ing.food.val ing.grams) t)
      t)).Nodup := by
  induction rs generalizing t with
  | nil => simpa using h
  | cons r rs ih => exact ih _ (keys_nodup_ings _ _ h)

theorem keys_nodup_plans (plans : List DailyMealPlan) (t : List (FoodItem × ℚ))
    (h : (keys t).Nodup) :
    (keys (plans.foldl
      (fun totals plan =>
        plan.recipes.foldl
          (fun t r => r.ingredients.foldl (fun t2 ing => dictAdd t2 ing.food.val ing.grams) t)
          totals)
      t)).Nodup := by
  induction plans generalizing t with
  | nil => simpa using h
  | cons p ps ih => exact ih _ (keys_nodup_recipes _ _ h)

theorem grocery_lookup_ings (l : List RecipeIngredient) (t : List (FoodItem × ℚ)) (f : FoodItem) :
    getAssoc (l.foldl (fun t2 ing => dictAdd t2 ing.food.val ing.grams) t) f 0 =
      getAssoc t f 0 + ingGramsFor f l :=
  getAssoc_foldl_dictAdd (fun i => i.food.val) (fun i => i.grams) l t f

theorem grocery_lookup_recipes (rs : List Recipe) (t : List (FoodItem × ℚ)) (f : FoodItem) :
    getAssoc (rs.foldl
        (fun t r => r.ingredients.foldl (fun t2 ing => dictAdd t2 ing.food.val ing.grams) t)
        t) f 0 =
      getAssoc t f 0 + (rs.map (fun r => ingGramsFor f r.ingredients)).sum := by
  induction rs generalizing t with
  | nil => simp
  | cons r rs ih =>
      simp only [List.foldl_cons, ih, grocery_lookup_ings, List.map_cons, List.sum_cons]
      ring

theorem grocery_lookup_plans (plans : List DailyMealPlan) (t : List (FoodItem × ℚ)) (f : FoodItem) :
    getAssoc (plans.foldl
        (fun totals plan =>
          plan.recipes.foldl
            (fun t r => r.ingredients.foldl (fun t2 ing => dictAdd t2 ing.food.val ing.grams) t)
            totals)
        t) f 0 =
      getAssoc t f 0 +
        (plans.map (fun p => (p.recipes.map (fun r => ingGramsFor f r.ingredients)).sum)).sum := by
  induction plans generalizing t with
  | nil => simp
  | cons p ps ih =>
      simp only [List.foldl_cons, ih, grocery_lookup_recipes, List.map_cons, List.sum_cons]
      ring

theorem total_kj_checked_foldl (l : List RecipeIngredient) (a : ℚ) :
    l.foldl
        (fun acc ing => acc.bind (fun a => ing.energy_kj_checked.map (fun e => a + e)))
        (some a) =
      some (l.foldl (fun acc ing => acc + ing.energy_kj) a) := by
  induction l generalizing a with
  | nil => rfl
  | cons x xs ih =>
      simp only [List.foldl_cons]
      rw [show x.energy_kj_checked = some x.energy_kj by
        simp [RecipeIngredient.energy_kj_checked, FoodItem.energy_kj_checked,
          FoodItem.kj_per_gram_checked, cdiv, RecipeIngredient.energy_kj,
          FoodItem.energy_kj, FoodItem.kj_per_gram]]
      simpa using ih (a + x.energy_kj)

theorem grocery_empty_recipes (rs : List Recipe) (t : List (FoodItem × ℚ))
    (h : ∀ r ∈ rs, r.ingredients = []) :
    rs.foldl
        (fun t r => r.ingredients.foldl (fun t2 ing => dictAdd t2 ing.food.val ing.grams) t)
        t = t := by
  induction rs generalizing t with
  | nil => rfl
  | cons r rs ih =>
      simp only [List.foldl_cons, h r (by simp), List.foldl_nil]
      exact ih t (fun r' hr' => h r' (by simp [hr']))

theorem grocery_empty_plans (plans : List DailyMealPlan) (t : List (FoodItem × ℚ))
    (h : ∀ p ∈ plans, ∀ r ∈ p.recipes, r.ingredients = []) :
    plans.foldl
        (fun totals plan =>
          plan.recipes.foldl
            (fun t r => r.ingredients.foldl (fun t2 ing => dictAdd t2 ing.food.val ing.grams) t)
            totals)
        t = t := by
  induction plans generalizing t with
  | nil => rfl
  | cons p ps ih =>
      simp only [List.foldl_cons, grocery_empty_recipes p.recipes t (h p (by simp))]
      exact ih t (fun p' hp' => h p' (by simp [hp']))

theorem sumBy_div (l : List RecipeIngredient) (f : RecipeIngredient → ℚ) (c : ℚ) :
    (l.map (fun x => f x / c)).sum = (l.map f).sum / c := by
  induction l with
  | nil => simp
  | cons x xs ih => simp [ih, add_div]

theorem rer35_bounds : 1007.09 < rer_kg 35 ∧ rer_kg 35 < 1007.44 := by
  have h35 : (0:ℝ) ≤ 35 := by norm_num
  have hy : (0:ℝ) < (35:ℝ) ^ (0.75:ℝ) := Real.rpow_pos_of_pos (by norm_num) _
  have h4 : ((35:ℝ) ^ (0.75:ℝ)) ^ (4:ℕ) = 42875 := by
    rw [← Real.rpow_natCast ((35:ℝ) ^ (0.75:ℝ)) 4, ← Real.rpow_mul h35]
    norm_num
  set y := (35:ℝ) ^ (0.75:ℝ) with hydef
  have h2 : (y ^ 2) ^ 2 = 42875 := by rw [← h4]; ring
  have hb : (0:ℝ) < y ^ 2 := by positivity
  have hbu : y ^ 2 < 207.1296 := by nlinarith [h2, hb]
  have hbl : (207.0:ℝ) < y ^ 2 := by nlinarith [h2, hb]
  have hyu : y < 14.392 := by nlinarith [hbu, hy]
  have hyl : (14.387:ℝ) < y := by nlinarith [hbl, hy]
  constructor
  · show (1007.09:ℝ) < 70 * y
    linarith
  · show 70 * y < (1007.44:ℝ)
    linarith

-- Claim theorems --------------------------------------------------------

/-- C1 counterexample: two FoodItem instances with identical field values
but distinct object identity (twinA at oid 0, twinB at oid 1), each used as
an ingredient food, do NOT stay separate keys in grocery_list_from_plans:
the returned mapping has a single key and their grams are merged (150). -/
theorem C1_grocery_identity_counterexample :
    twinA.val = twinB.val ∧ twinA ≠ twinB ∧
    grocery_list_from_plans [planTwinA, planTwinB] = [(exChicken, 150)] ∧
    (grocery_list_from_plans [planTwinA, planTwinB]).length = 1 := by
  have h : grocery_list_from_plans [planTwinA, planTwinB] = [(exChicken, 150)] := by
    norm_num [grocery_list_from_plans, planTwinA, planTwinB, twinA, twinB, dictAdd,
      updAssoc, getAssoc, exChicken]
  exact ⟨rfl, by simp [twinA, twinB], h, by rw [h]; rfl⟩

/-- C1 (amended): grocery_list_from_plans is keyed by FoodItem field
values, not object identity: the result is invariant under any
reassignment of object ids, and no FoodItem value ever appears as two
separate keys (the key list has no duplicates), so equal-valued instances
accumulate into one key. -/
theorem C1_grocery_value_keyed :
    (∀ (g : Nat → Nat) (plans : List DailyMealPlan),
      grocery_list_from_plans (plans.map (DailyMealPlan.withOids g)) =
        grocery_list_from_plans plans) ∧
    (∀ plans : List DailyMealPlan, (keys (grocery_list_from_plans plans)).Nodup) := by
  constructor
  · intro g plans
    simp [grocery_list_from_plans, DailyMealPlan.withOids, Recipe.withOids,
      RecipeIngredient.withOids, FoodRef.withOid, List.foldl_map]
  · intro plans
    exact keys_nodup_plans plans [] (by simp [keys])

/-- C2: grocery_list_from_plans maps each food value to the sum of grams of
every ingredient referencing that food across every recipe in every plan;
in particular two plans each holding one recipe with one shared FoodItem
object at 100g and 50g yield 150g for that object. -/
theorem C2_grocery_sums_grams :
    (∀ (plans : List DailyMealPlan) (f : FoodItem),
      getAssoc (grocery_list_from_plans plans) f 0 =
        (plans.map (fun p => (p.recipes.map (fun r => ingGramsFor f r.ingredients)).sum)).sum) ∧
    getAssoc (grocery_list_from_plans [planShared1, planShared2]) exChicken 0 = 150 := by
  constructor
  · intro plans f
    simp only [grocery_list_from_plans]
    simpa [getAssoc] using grocery_lookup_plans plans [] f
  · norm_num [grocery_list_from_plans, planShared1, planShared2, sharedRef, dictAdd,
      updAssoc, getAssoc, exChicken]

/-- C3: a recipe's total_kj, total_cost and total_kcal are the sums of its
ingredients' energy_kj, cost and energy_kcal; the spec's worked example
recipe (6903.6 kJ/kg at 140g plus 5439.2 kJ/kg at 156g) has
total_kj = 966.504 + 848.5152 = 1815.0192. -/
theorem C3_recipe_totals :
    (∀ r : Recipe,
      r.total_kj = (r.ingredients.map (fun i => i.energy_kj)).sum ∧
      r.total_cost = (r.ingredients.map (fun i => i.cost)).sum ∧
      r.total_kcal = (r.ingredients.map (fun i => i.energy_kcal)).sum) ∧
    exRecipe.total_kj = 966.504 + 848.5152 ∧ exRecipe.total_kj = 1815.0192 := by
  refine ⟨fun r => ⟨sumBy_eq_sum _ _, sumBy_eq_sum _ _, ?_⟩, ?_, ?_⟩
  · calc r.total_kcal
        = (r.ingredients.map (fun i => i.energy_kj)).sum / KJ_PER_KCAL := by
          rw [Recipe.total_kcal, kj_to_kcal, Recipe.total_kj, sumBy_eq_sum]
      _ = (r.ingredients.map (fun i => i.energy_kj / KJ_PER_KCAL)).sum :=
          (sumBy_div _ _ _).symm
      _ = (r.ingredients.map (fun i => i.energy_kcal)).sum := rfl
  · norm_num [Recipe.total_kj, sumBy, RecipeIngredient.energy_kj, FoodItem.energy_kj,
      FoodItem.kj_per_gram, exRecipe, exChicken, exRice]
  · norm_num [Recipe.total_kj, sumBy, RecipeIngredient.energy_kj, FoodItem.energy_kj,
      FoodItem.kj_per_gram, exRecipe, exChicken, exRice]

/-- C4: for every FoodItem and grams g ≥ 0, energy_kj g = kj_per_kg * g / 1000
and cost g = dollars_per_kg * g / 1000; the spec's example food
(6903.6 kJ/kg, 17.61 dollars/kg) has energy_kj 140 = 966.504 and
cost 140 = 2.4654. -/
theorem C4_fooditem_formulas (f : FoodItem) (g : ℚ) (_h : 0 ≤ g) :
    f.energy_kj g = f.kj_per_kg * g / 1000 ∧
    f.cost g = f.dollars_per_kg * g / 1000 ∧
    exChicken.energy_kj 140 = 966.504 ∧ exChicken.cost 140 = 2.4654 := by
  refine ⟨?_, ?_, ?_, ?_⟩
  · rw [FoodItem.energy_kj, FoodItem.kj_per_gram]; ring
  · rw [FoodItem.cost]; ring
  · norm_num [FoodItem.energy_kj, FoodItem.kj_per_gram, exChicken]
  · norm_num [FoodItem.cost, exChicken]

/-- C4 witness: the formula theorem instantiated at the spec's example food
and 140 grams. -/
theorem C4_fooditem_formulas_witness :
    (0:ℚ) ≤ 140 ∧
    (exChicken.energy_kj 140 = exChicken.kj_per_kg * 140 / 1000 ∧
     exChicken.cost 140 = exChicken.dollars_per_kg * 140 / 1000 ∧
     exChicken.energy_kj 140 = 966.504 ∧ exChicken.cost 140 = 2.4654) :=
  ⟨by norm_num, C4_fooditem_formulas exChicken 140 (by norm_num)⟩

/-- C5: for every recipe, the values of energy_kj_by_category sum to the
recipe's total_kj. -/
theorem C5_category_values_sum (r : Recipe) :
    sumVals r.energy_kj_by_category = r.total_kj := by
  rw [Recipe.total_kj, sumBy_eq_sum]
  have h := sumVals_foldl_dictAdd (fun i : RecipeIngredient => i.food.val.category)
    (fun i => i.energy_kj) r.ingredients []
  simpa [sumVals] using h

/-- C5 witness: the value-sum identity instantiated at the spec's worked
example recipe. -/
theorem C5_category_values_sum_witness :
    sumVals exRecipe.energy_kj_by_category = exRecipe.total_kj :=
  C5_category_values_sum exRecipe

/-- C6 counterexample: the spec's numbers are wrong for the code's
formulas: rer_kg 35 = 70 * 35 ^ 0.75 is about 1007.3, more than 30 away
from the claimed 1039.9, and weight_loss_target_kcal 35 0.8 is about
805.8, more than 20 away from the claimed 831.9. -/
theorem C6_example_counterexample :
    30 < |rer_kg 35 - 1039.9| ∧ 20 < |weight_loss_target_kcal 35 0.8 - 831.9| := by
  obtain ⟨hl, hu⟩ := rer35_bounds
  have hwl : weight_loss_target_kcal 35 0.8 = rer_kg 35 * 0.8 := rfl
  constructor
  · rw [abs_sub_comm, abs_of_pos (by linarith)]
    linarith
  · rw [hwl, abs_sub_comm, abs_of_pos (by linarith)]
    linarith

/-- C6 (amended): rer_kg w = 70 * w ^ 0.75, weight_loss_target_kcal is
rer_kg times the factor (0.8 by default in the source), and
weight_loss_target_kj converts via 4.184; numerically rer_kg 35 is about
1007.3 kcal/day and weight_loss_target_kcal 35 0.8 about 805.8 kcal/day. -/
theorem C6_target_formulas :
    (∀ w : ℝ, rer_kg w = 70 * w ^ (0.75:ℝ)) ∧
    (∀ (w f : ℝ), weight_loss_target_kcal w f = rer_kg w * f) ∧
    (∀ (w f : ℝ), weight_loss_target_kj w f = weight_loss_target_kcal w f * 4.184) ∧
    |rer_kg 35 - 1007.3| < 0.25 ∧
    |weight_loss_target_kcal 35 0.8 - 805.8| < 0.2 := by
  obtain ⟨hl, hu⟩ := rer35_bounds
  have hwl : weight_loss_target_kcal 35 0.8 = rer_kg 35 * 0.8 := rfl
  refine ⟨fun w => rfl, fun w f => rfl, fun w f => rfl, ?_, ?_⟩
  · rw [abs_lt]
    constructor <;> linarith
  · rw [hwl, abs_lt]
    constructor <;> linarith

/-- C7: energy_kj_by_food groups ingredients by the food's name string
(distinct FoodItem values sharing one name merge into a single key), and
energy_kj_by_category groups by category value; dupRecipe pairs a PROTEIN
and a CARB food both named "dup" and gets the single entry ("dup", 50). -/
theorem C7_grouping_by_name_and_category :
    (∀ (r : Recipe) (n : String),
      getAssoc r.energy_kj_by_food n 0 =
        ((r.ingredients.filter (fun i => i.food.val.name = n)).map
          (fun i => i.energy_kj)).sum) ∧
    (∀ (r : Recipe) (c : FoodCategory),
      getAssoc r.energy_kj_by_category c 0 =
        ((r.ingredients.filter (fun i => i.food.val.category = c)).map
          (fun i => i.energy_kj)).sum) ∧
    dupProtein ≠ dupCarb ∧ dupProtein.name = dupCarb.name ∧
    dupRecipe.energy_kj_by_food = [("dup", 50)] := by
  refine ⟨?_, ?_, by simp [dupProtein, dupCarb], rfl, ?_⟩
  · intro r n
    simp only [Recipe.energy_kj_by_food]
    simpa [getAssoc] using getAssoc_foldl_dictAdd
      (fun i : RecipeIngredient => i.food.val.name) (fun i => i.energy_kj) r.ingredients [] n
  · intro r c
    simp only [Recipe.energy_kj_by_category]
    simpa [getAssoc] using getAssoc_foldl_dictAdd
      (fun i : RecipeIngredient => i.food.val.category) (fun i => i.energy_kj) r.ingredients [] c
  · norm_num [Recipe.energy_kj_by_food, dupRecipe, dupProtein, dupCarb, dictAdd,
      updAssoc, getAssoc, RecipeIngredient.energy_kj, FoodItem.energy_kj, FoodItem.kj_per_gram]

/-- C8: converting kJ to kcal and back through the fixed constant 4.184 is
the identity, exactly, under exact rational arithmetic. -/
theorem C8_kcal_kj_roundtrip (x : ℚ) : kcal_to_kj (kj_to_kcal x) = x := by
  rw [kj_to_kcal, kcal_to_kj]
  exact div_mul_cancel₀ x (by norm_num [KJ_PER_KCAL])

/-- C8 witness: the round-trip instantiated at 1815.0192. -/
theorem C8_kcal_kj_roundtrip_witness :
    kcal_to_kj (kj_to_kcal 1815.0192) = 1815.0192 :=
  C8_kcal_kj_roundtrip 1815.0192

/-- C9: no division by zero can occur: every formula written with an
explicit checked division (failing on a zero divisor) succeeds on all
inputs, including negative ones, and returns exactly the unchecked value;
the only divisors are the non-zero constants 1000 and 4.184. -/
theorem C9_no_division_by_zero :
    KJ_PER_KCAL ≠ 0 ∧ (1000:ℚ) ≠ 0 ∧
    (∀ x : ℚ, kj_to_kcal_checked x = some (kj_to_kcal x)) ∧
    (∀ f : FoodItem, f.kj_per_gram_checked = some f.kj_per_gram) ∧
    (∀ (f : FoodItem) (g : ℚ), f.energy_kj_checked g = some (f.energy_kj g)) ∧
    (∀ (f : FoodItem) (g : ℚ), f.energy_kcal_checked g = some (f.energy_kcal g)) ∧
    (∀ (f : FoodItem) (g : ℚ), f.cost_checked g = some (f.cost g)) ∧
    (∀ r : Recipe, r.total_kj_checked = some r.total_kj) ∧
    (∀ r : Recipe, r.total_kcal_checked = some r.total_kcal) := by
  have hc : KJ_PER_KCAL ≠ 0 := by norm_num [KJ_PER_KCAL]
  have htot : ∀ r : Recipe, r.total_kj_checked = some r.total_kj :=
    fun r => total_kj_checked_foldl r.ingredients 0
  refine ⟨hc, by norm_num, ?_, ?_, ?_, ?_, ?_, htot, ?_⟩
  · intro x
    simp [kj_to_kcal_checked, cdiv, hc, kj_to_kcal]
  · intro f
    simp [FoodItem.kj_per_gram_checked, cdiv, FoodItem.kj_per_gram]
  · intro f g
    simp [FoodItem.energy_kj_checked, FoodItem.kj_per_gram_checked, cdiv,
      FoodItem.energy_kj, FoodItem.kj_per_gram]
  · intro f g
    simp [FoodItem.energy_kcal_checked, FoodItem.energy_kj_checked,
      FoodItem.kj_per_gram_checked, kj_to_kcal_checked, cdiv, hc,
      FoodItem.energy_kcal, FoodItem.energy_kj, FoodItem.kj_per_gram, kj_to_kcal]
  · intro f g
    simp [FoodItem.cost_checked, cdiv, FoodItem.cost]
  · intro r
    simp [Recipe.total_kcal_checked, htot r, kj_to_kcal_checked, cdiv, hc,
      Recipe.total_kcal, kj_to_kcal]

/-- C10: a recipe with no ingredients and a plan with no recipes have all
totals equal to 0, and grocery_list_from_plans returns the empty mapping
both on an empty plan sequence and on plans whose recipes all have no
ingredients. -/
theorem C10_empty_boundaries (name notes : String) (d : Date)
    (plans : List DailyMealPlan)
    (h : ∀ p ∈ plans, ∀ r ∈ p.recipes, r.ingredients = []) :
    (Recipe.mk name [] notes).total_kj = 0 ∧
    (Recipe.mk name [] notes).total_kcal = 0 ∧
    (Recipe.mk name [] notes).total_cost = 0 ∧
    (DailyMealPlan.mk d []).total_kj = 0 ∧
    (DailyMealPlan.mk d []).total_kcal = 0 ∧
    (DailyMealPlan.mk d []).total_cost = 0 ∧
    grocery_list_from_plans [] = [] ∧
    grocery_list_from_plans plans = [] := by
  refine ⟨rfl, ?_, rfl, rfl, ?_, rfl, rfl, ?_⟩
  · simp [Recipe.total_kcal, Recipe.total_kj, sumBy, kj_to_kcal]
  · simp [DailyMealPlan.total_kcal, DailyMealPlan.total_kj, sumBy, kj_to_kcal]
  · exact grocery_empty_plans plans [] h

/-- C10 witness: the boundary theorem instantiated at a concrete date and a
plan holding one ingredientless recipe. -/
theorem C10_empty_boundaries_witness :
    ((⟨"", [], ""⟩ : Recipe).total_kj = 0 ∧
     (⟨"", [], ""⟩ : Recipe).total_kcal = 0 ∧
     (⟨"", [], ""⟩ : Recipe).total_cost = 0 ∧
     (⟨⟨2025, 1, 1⟩, []⟩ : DailyMealPlan).total_kj = 0 ∧
     (⟨⟨2025, 1, 1⟩, []⟩ : DailyMealPlan).total_kcal = 0 ∧
     (⟨⟨2025, 1, 1⟩, []⟩ : DailyMealPlan).total_cost = 0 ∧
     grocery_list_from_plans [] = [] ∧
     grocery_list_from_plans [planEmptyIng] = []) :=
  C10_empty_boundaries ("") ("") ⟨2025, 1, 1⟩ [planEmptyIng]
    (by
      intro p hp r hr
      simp only [List.mem_singleton] at hp
      subst hp
      simp only [planEmptyIng, List.mem_singleton] at hr
      subst hr
      rfl)

end NutritionModels
